import Mathlib

/-!
Verification of the identity / multi-tenancy core of the wareaxis backend.

The Python sources under `backend/app` are shallowly embedded:
pure helpers become Lean functions, the database session becomes explicit
state passing over a `Store` / `Session` pair, timestamps are modelled as
seconds since the epoch (`Nat`), and fallible Python code (exceptions)
returns `Except`.  External collaborators that the claims do not inspect
internally — the bcrypt password check, the HMAC used by the JWT library —
are passed in as function parameters, mirroring their role as opaque
primitives in the source.
-/

set_option maxRecDepth 4000

namespace WareAxis

/-! ### Credential and token subsystem (`app/core/security.py`, `app/core/config.py`) -/

/-- Settings.ACCESS_TOKEN_EXPIRE_MINUTES (config.py). -/
def ACCESS_TOKEN_EXPIRE_MINUTES : Nat := 30

/-- Settings.REFRESH_TOKEN_EXPIRE_DAYS (config.py). -/
def REFRESH_TOKEN_EXPIRE_DAYS : Nat := 7

/-- JWT claims carried by a token (`TokenPayload` in security.py).
Expiry is an absolute instant in seconds. -/
structure TokenPayload where
  sub : String
  tenant_id : String
  exp : Nat
  type : String
  roles : List String
deriving DecidableEq, Repr

/-- A signed token: its claims plus the JWS signature value.  The
signature of a genuine token equals `mac secret payload` for the
HMAC function `mac` and the shared secret. -/
structure Token where
  payload : TokenPayload
  sig : Nat
deriving DecidableEq, Repr

/-- security.decode_token: `jose.jwt.decode` accepts a token exactly when its
signature verifies under the shared secret and its `exp` claim has not
passed (jose validates `exp` during decode and raises `ExpiredSignatureError`,
a `JWTError`, when `exp < now`); any `JWTError` is caught and becomes `None`. -/
def decode_token (mac : String → TokenPayload → Nat) (secret : String) (now : Nat)
    (t : Token) : Option TokenPayload :=
  if t.sig = mac secret t.payload ∧ ¬ t.payload.exp < now then some t.payload else none

/-- security.verify_token: decode, then check the kind claim, then re-check expiry. -/
def verify_token (mac : String → TokenPayload → Nat) (secret : String) (now : Nat)
    (t : Token) (token_type : String) : Option TokenPayload :=
  match decode_token mac secret now t with
  | none => none
  | some payload =>
    if payload.type ≠ token_type then none
    else if payload.exp < now then none
    else some payload

/-- security.create_access_token with the default expiry delta. -/
def create_access_token (mac : String → TokenPayload → Nat) (secret : String)
    (user_id tenant_id : String) (roles : List String) (now : Nat) : Token :=
  let p : TokenPayload :=
    { sub := user_id, tenant_id := tenant_id,
      exp := now + ACCESS_TOKEN_EXPIRE_MINUTES * 60, type := "access", roles := roles }
  { payload := p, sig := mac secret p }

/-- security.create_refresh_token with the default expiry delta (the refresh
payload carries no roles claim; decoding defaults it to `[]`). -/
def create_refresh_token (mac : String → TokenPayload → Nat) (secret : String)
    (user_id tenant_id : String) (now : Nat) : Token :=
  let p : TokenPayload :=
    { sub := user_id, tenant_id := tenant_id,
      exp := now + REFRESH_TOKEN_EXPIRE_DAYS * 24 * 60 * 60, type := "refresh", roles := [] }
  { payload := p, sig := mac secret p }

/-- security.TokenPair. -/
structure TokenPair where
  access_token : Token
  refresh_token : Token
  token_type : String
  expires_in : Nat
deriving DecidableEq, Repr

/-- security.create_token_pair. -/
def create_token_pair (mac : String → TokenPayload → Nat) (secret : String)
    (user_id tenant_id : String) (roles : List String) (now : Nat) : TokenPair :=
  { access_token := create_access_token mac secret user_id tenant_id roles now,
    refresh_token := create_refresh_token mac secret user_id tenant_id now,
    token_type := "bearer",
    expires_in := ACCESS_TOKEN_EXPIRE_MINUTES * 60 }

/-- C4: `verify_token` accepts a token, returning its payload, exactly when the
signature validates under the shared secret, the kind claim equals the expected
kind, and the expiry has not passed; it is rejected exactly when `now > exp`
(so a token is accepted at `exp` and one second before it, rejected one second
after it). -/
theorem verify_token_accept_iff (mac : String → TokenPayload → Nat) (secret : String)
    (now : Nat) (t : Token) (token_type : String) :
    verify_token mac secret now t token_type =
      if t.sig = mac secret t.payload ∧ t.payload.type = token_type ∧ ¬ now > t.payload.exp
      then some t.payload else none := by
  by_cases hsig : t.sig = mac secret t.payload <;>
    by_cases hexp : t.payload.exp < now <;>
      by_cases hty : t.payload.type = token_type <;>
        simp [verify_token, decode_token, hsig, hexp, hty, gt_iff_lt]

/-! ### Authentication / authorization dependencies (`app/core/dependencies.py`) -/

/-- The error payload FastAPI turns into an HTTP error response. -/
structure HTTPException where
  status : Nat
  detail : String
deriving DecidableEq, Repr

/-- dependencies.get_current_user_token: 401 when the bearer credential is
missing, 401 when verification (signature / kind `access` / expiry) fails,
otherwise the verified payload. -/
def get_current_user_token (mac : String → TokenPayload → Nat) (secret : String)
    (now : Nat) (credentials : Option Token) : Except HTTPException TokenPayload :=
  match credentials with
  | none => .error { status := 401, detail := "Not authenticated" }
  | some cred =>
    match verify_token mac secret now cred "access" with
    | none => .error { status := 401, detail := "Invalid or expired token" }
    | some payload => .ok payload

/-- Body of the checker closure produced by dependencies.require_roles: admin
bypass, otherwise non-empty intersection of the token's role set with the
required set, else 403. -/
def role_checker (required_roles : List String) (token : TokenPayload) :
    Except HTTPException TokenPayload :=
  if token.roles.contains "admin" then .ok token
  else if required_roles.any (fun r => token.roles.contains r) then .ok token
  else .error { status := 403,
                detail := "Required roles: " ++ String.intercalate ", " required_roles }

/-- The dependency chain `require_roles(*required)` as seen by an endpoint:
resolve the bearer token via get_current_user_token, then run the role check. -/
def require_roles (required_roles : List String) (mac : String → TokenPayload → Nat)
    (secret : String) (now : Nat) (credentials : Option Token) :
    Except HTTPException TokenPayload :=
  match get_current_user_token mac secret now credentials with
  | .error e => .error e
  | .ok token => role_checker required_roles token

/-- C5: for every verified token and required role list (empty or disjoint
included), require_roles allows unconditionally when the token holds the
`admin` role; otherwise it allows exactly when the token's role set meets the
required set, a denial being the 403 Forbidden outcome; and a missing or
invalid credential instead surfaces as the 401 Unauthenticated outcome. -/
theorem require_roles_spec (mac : String → TokenPayload → Nat) (secret : String)
    (now : Nat) (credentials : Option Token) (required_roles : List String) :
    (∀ token, get_current_user_token mac secret now credentials = .ok token →
      ("admin" ∈ token.roles →
          require_roles required_roles mac secret now credentials = .ok token)
      ∧ ("admin" ∉ token.roles →
          (require_roles required_roles mac secret now credentials = .ok token ↔
            ∃ r ∈ required_roles, r ∈ token.roles)
          ∧ ((¬ ∃ r ∈ required_roles, r ∈ token.roles) →
              require_roles required_roles mac secret now credentials =
                .error { status := 403,
                         detail := "Required roles: " ++
                           String.intercalate ", " required_roles })))
    ∧ (∀ e, get_current_user_token mac secret now credentials = .error e →
        require_roles required_roles mac secret now credentials = .error e
        ∧ e.status = 401) := by
  constructor
  · intro token hok
    have hreq : require_roles required_roles mac secret now credentials =
        role_checker required_roles token := by
      simp [require_roles, hok]
    constructor
    · intro hadm
      simp [hreq, role_checker, hadm]
    · intro hadm
      refine ⟨?_, ?_⟩
      · by_cases hint : ∃ r ∈ required_roles, r ∈ token.roles
        · simp [hreq, role_checker, hadm, hint]
        · simp [hreq, role_checker, hadm, hint]
      · intro hint
        simp [hreq, role_checker, hadm, hint]
  · intro e herr
    refine ⟨by simp [require_roles, herr], ?_⟩
    unfold get_current_user_token at herr
    cases credentials with
    | none => simp at herr; simp [← herr]
    | some cred =>
      cases h : verify_token mac secret now cred "access" with
      | none => simp [h] at herr; simp [← herr]
      | some p => simp [h] at herr

/-- Witness for C5 at a concrete verified token: an admin token passes for a
disjoint required set, a non-admin token is refused 403 for it, and a missing
credential is refused 401. -/
theorem require_roles_spec_witness :
    (require_roles ["manager"] (fun _ _ => 0) "k" 10
        (some { payload := { sub := "u1", tenant_id := "acme", exp := 99,
                             type := "access", roles := ["admin"] }, sig := 0 }) =
      .ok { sub := "u1", tenant_id := "acme", exp := 99,
            type := "access", roles := ["admin"] })
    ∧ (require_roles ["manager"] (fun _ _ => 0) "k" 10 none =
        .error { status := 401, detail := "Not authenticated" }) := by
  constructor
  · exact ((require_roles_spec (fun _ _ => 0) "k" 10
      (some { payload := { sub := "u1", tenant_id := "acme", exp := 99,
                           type := "access", roles := ["admin"] }, sig := 0 })
      ["manager"]).1 _ rfl).1 (by decide)
  · exact ((require_roles_spec (fun _ _ => 0) "k" 10 none ["manager"]).2
      { status := 401, detail := "Not authenticated" } rfl).1

/-! ### Tenant-context middleware (`app/core/tenancy.py`) -/

/-- Python str.startswith, on the underlying character list (the library
String functions do not reduce in the kernel, so the Python string
operations are modelled structurally). -/
def str_starts_with (s pre : String) : Bool :=
  List.isPrefixOf pre.data s.data

/-- Python `c in s` for a single character `c`. -/
def str_has_char (s : String) (c : Char) : Bool :=
  s.data.contains c

/-- Helper for `str_split`: split a character list at every occurrence of the
separator, keeping empty pieces, as Python str.split(sep) does. -/
def split_chars (c : Char) : List Char → List (List Char)
  | [] => [[]]
  | x :: xs =>
    match split_chars c xs with
    | [] => [[x]]
    | piece :: rest =>
      if x == c then [] :: piece :: rest else (x :: piece) :: rest

/-- Python str.split(sep) for a single-character separator. -/
def str_split (s : String) (c : Char) : List String :=
  (split_chars c s.data).map String.mk

/-- The parts of an inbound request the middleware inspects.  `host` is the
Host header with default "" when missing, as in `headers.get("Host", "")`. -/
structure Request where
  authorization : Option String
  x_tenant_id : Option String
  host : String
  path : String
deriving DecidableEq, Repr

/-- The token part of a bearer Authorization header:
`auth_header.split(" ")[1]` guarded by `auth_header.startswith("Bearer ")`. -/
def bearer_token_str (auth : String) : Option String :=
  if str_starts_with auth "Bearer " then (str_split auth ' ').get? 1 else none

/-- TenantMiddleware._extract_tenant.  The middleware decodes bearer-token
strings with `decode_token`; that composite (string parsing plus signature and
expiry validation) is the `decode` parameter here.  Mirrors the Python
early-return chain, including the truthiness tests that make empty strings
fall through. -/
def extract_tenant (decode : String → Option TokenPayload) (req : Request) :
    Option String :=
  let from_host : Option String :=
    if str_has_char req.host '.' then
      let subdomain := (str_split req.host '.').headD ""
      if subdomain ≠ "" ∧ ¬ ["www", "api", "app"].contains subdomain
      then some subdomain else none
    else none
  let from_token : Option String :=
    match req.authorization with
    | some auth =>
      match bearer_token_str auth with
      | some tok =>
        match decode tok with
        | some payload =>
          if payload.tenant_id ≠ "" then some payload.tenant_id else none
        | none => none
      | none => none
    | none => none
  match from_token with
  | some t => some t
  | none =>
    match req.x_tenant_id with
    | some h => if h ≠ "" then some h else from_host
    | none => from_host

/-- Resolution source (1) as C7 words it: the tenant claim of a present and
decodable bearer token (the claim counts an empty claim as no match, which is
what the Python truthiness test does). -/
def source_token (decode : String → Option TokenPayload) (auth : Option String) :
    Option String :=
  match auth with
  | none => none
  | some a =>
    match bearer_token_str a with
    | none => none
    | some tok =>
      match decode tok with
      | none => none
      | some payload => if payload.tenant_id ≠ "" then some payload.tenant_id else none

/-- Resolution source (2) as C7 words it: the explicit X-Tenant-ID header
(empty counts as absent). -/
def source_header (header : Option String) : Option String :=
  match header with
  | none => none
  | some h => if h ≠ "" then some h else none

/-- Resolution source (3) exactly as C7 words it: the leading label of the
Host name unless that label is one of the reserved labels www, api, app. -/
def source_host_claimed (host : String) : Option String :=
  let label := (str_split host '.').headD ""
  if label ≠ "" ∧ ¬ ["www", "api", "app"].contains label then some label else none

/-- Resolution source (3) as the code actually has it: only when the Host
contains a dot is its leading label considered, and then only when it is
non-empty and not reserved. -/
def source_host_amended (host : String) : Option String :=
  if str_has_char host '.' then source_host_claimed host else none

/-- First-match-wins combination of two sources. -/
def first_match (a b : Option String) : Option String :=
  match a with
  | some t => some t
  | none => b

/-- Tenant extraction as claim C7 states it: sources (1), (2), (3) in order,
first match winning, where (3) is the leading Host label unless reserved. -/
def extract_tenant_claimed (decode : String → Option TokenPayload) (req : Request) :
    Option String :=
  first_match (source_token decode req.authorization)
    (first_match (source_header req.x_tenant_id) (source_host_claimed req.host))

/-- Tenant extraction as amended for C7: same as the claim except that the
Host label is only consulted when the Host contains a dot. -/
def extract_tenant_amended (decode : String → Option TokenPayload) (req : Request) :
    Option String :=
  first_match (source_token decode req.authorization)
    (first_match (source_header req.x_tenant_id) (source_host_amended req.host))

/-- TenantMiddleware.PUBLIC_PATHS with settings.API_V1_PREFIX = "/api/v1". -/
def PUBLIC_PATHS : List String :=
  ["/", "/health", "/docs", "/redoc", "/openapi.json",
   "/api/v1" ++ "/auth/login", "/api/v1" ++ "/auth/register",
   "/api/v1" ++ "/auth/refresh", "/api/v1" ++ "/tenants/register"]

/-- TenantMiddleware._is_public_path: true when the path starts with, or
equals, any entry of PUBLIC_PATHS. -/
def is_public_path (path : String) : Bool :=
  PUBLIC_PATHS.any (fun public_path => str_starts_with path public_path || path == public_path)

/-- Python truthiness of the extracted `Optional[str]`. -/
def truthy (o : Option String) : Bool :=
  match o with
  | some s => s ≠ ""
  | none => false

/-- TenantMiddleware.dispatch over the context-variable state `ctx`
(the value of `current_tenant_id`).  `call_next` is the downstream handler's
outcome: a response or a raised exception.  Returns the response outcome and
the context-variable value after the middleware finishes; when `call_next`
raises, the exception propagates before the clearing line runs. -/
def dispatch {ε ρ : Type} (decode : String → Option TokenPayload) (req : Request)
    (call_next : Except ε ρ) (ctx : Option String) : Except ε ρ × Option String :=
  if is_public_path req.path then (call_next, ctx)
  else
    let tenant_id := extract_tenant decode req
    let ctx1 := if truthy tenant_id then tenant_id
                else if ¬ is_public_path req.path then none else ctx
    match call_next with
    | .error e => (.error e, ctx1)
    | .ok r => (.ok r, none)

/-- C7 counterexample: with no bearer token and no X-Tenant-ID header, a
request whose Host is the single label "localhost" — not one of the reserved
labels — resolves to no tenant in the code, while the claimed resolution
order yields the leading label "localhost".  The claim as stated is false. -/
theorem extract_tenant_bare_host_counterexample :
    extract_tenant (fun _ => none)
        { authorization := none, x_tenant_id := none, host := "localhost",
          path := "/api/v1/users" } = none
    ∧ extract_tenant_claimed (fun _ => none)
        { authorization := none, x_tenant_id := none, host := "localhost",
          path := "/api/v1/users" } = some "localhost"
    ∧ ¬ ["www", "api", "app"].contains "localhost" := by
  refine ⟨by decide, by decide, by decide⟩

/-- C7 as amended: tenant extraction tries, in order and first match winning,
(1) the non-empty tenant claim of a present and decodable bearer token,
(2) the non-empty X-Tenant-ID header, (3) only when the Host contains a dot,
its leading label unless empty or reserved (www, api, app); otherwise the
result is "no tenant" rather than an exception. -/
theorem extract_tenant_order_amended (decode : String → Option TokenPayload)
    (req : Request) :
    extract_tenant decode req = extract_tenant_amended decode req := by
  unfold extract_tenant extract_tenant_amended source_token source_header
    source_host_amended source_host_claimed first_match
  cases hA : req.authorization with
  | none =>
    cases hX : req.x_tenant_id with
    | none => simp
    | some h => by_cases hh : h = "" <;> simp [hh]
  | some a =>
    cases hB : bearer_token_str a with
    | none =>
      cases hX : req.x_tenant_id with
      | none => simp [hB]
      | some h => by_cases hh : h = "" <;> simp [hB, hh]
    | some tok =>
      cases hD : decode tok with
      | none =>
        cases hX : req.x_tenant_id with
        | none => simp [hB, hD]
        | some h => by_cases hh : h = "" <;> simp [hB, hD, hh]
      | some payload =>
        by_cases hp : payload.tenant_id = ""
        · cases hX : req.x_tenant_id with
          | none => simp [hB, hD, hp]
          | some h => by_cases hh : h = "" <;> simp [hB, hD, hp, hh]
        · simp [hB, hD, hp]

/-- C10: every request path — every path beginning with the "/" that HTTP
origin-form request targets start with — is matched by the public-path check,
because PUBLIC_PATHS contains "/" and matching is by string prefix; hence
dispatch takes the public-path early return on every request: it forwards the
downstream outcome and neither extracts, stores, nor clears a tenant
identifier (the context state is returned untouched). -/
theorem is_public_path_always_true {ε ρ : Type} (decode : String → Option TokenPayload)
    (req : Request) (call_next : Except ε ρ) (ctx : Option String)
    (h : str_starts_with req.path "/" = true) :
    is_public_path req.path = true
    ∧ dispatch decode req call_next ctx = (call_next, ctx) := by
  have hpub : is_public_path req.path = true := by
    simp [is_public_path, PUBLIC_PATHS, h]
  exact ⟨hpub, by simp [dispatch, hpub]⟩

/-- Witness for C10 at a concrete tenant-scoped API path: the path is judged
public and dispatch early-returns without touching the tenant context. -/
theorem is_public_path_always_true_witness :
    str_starts_with "/api/v1/users" "/" = true
    ∧ is_public_path "/api/v1/users" = true
    ∧ dispatch (fun _ => none)
        { authorization := none, x_tenant_id := none, host := "acme.example.com",
          path := "/api/v1/users" }
        (Except.ok (0 : Nat) : Except Nat Nat) (some "stale") =
      (Except.ok 0, some "stale") := by
  refine ⟨by decide, ?_⟩
  have h := is_public_path_always_true (ε := Nat) (ρ := Nat) (fun _ => none)
    { authorization := none, x_tenant_id := none, host := "acme.example.com",
      path := "/api/v1/users" }
    (Except.ok 0) (some "stale") (by decide)
  exact ⟨h.1, h.2⟩

/-- C6: the middleware does NOT clear the request-scoped tenant state
unconditionally.  First, since "/" prefix-matches every request path, dispatch
early-returns on every real request and the clearing line never runs: a stale
tenant identifier in the context variable survives the request.  Second, even
on the non-public branch (a path without the leading slash), the clearing call
sits after `call_next` with no try/finally, so when the downstream handler
raises, the freshly stored tenant identifier is left behind. -/
theorem dispatch_does_not_clear_tenant_state :
    ((dispatch (fun _ => none)
        { authorization := none, x_tenant_id := none, host := "acme.example.com",
          path := "/api/v1/users" }
        (Except.ok (0 : Nat) : Except Nat Nat) (some "acme")).2 = some "acme"
      ∧ some "acme" ≠ (none : Option String))
    ∧ ((dispatch (fun _ => none)
        { authorization := none, x_tenant_id := none, host := "acme.example.com",
          path := "no-leading-slash" }
        (Except.error (7 : Nat) : Except Nat Nat) none).2 = some "acme"
      ∧ some "acme" ≠ (none : Option String)) := by
  refine ⟨⟨by decide, by decide⟩, ⟨by decide, by decide⟩⟩

/-! ### Account guard (`app/services/user_service.py`, UserService.authenticate) -/

/-- Python exceptions surfacing from the service layer. -/
inductive PyErr
  | valueError
  | injected
  | programmingError
deriving DecidableEq, Repr

/-- An identity row in a tenant partition (`app/models/user.py`).  `roles` is
the denormalised `role_codes` list of the user_roles association.  Times are
seconds since the epoch. -/
structure User where
  id : String
  username : String
  email : String
  password_hash : String
  is_active : Bool
  is_verified : Bool
  is_superuser : Bool
  is_deleted : Bool
  failed_login_attempts : Nat
  locked_until : Option Nat
  last_login : Option Nat
  roles : List String
deriving DecidableEq, Repr

/-- The minute-of-hour field of a timestamp. -/
def minute_of (now : Nat) : Nat := now / 60 % 60

/-- The lockout instant computed by user_service.py lines 210-212:
`datetime.now(utc).replace(minute=datetime.now(utc).minute + 30)`.
datetime.replace validates the minute field against 0..59, so when the
current minute plus 30 exceeds 59 it raises ValueError; otherwise the result
keeps every other field, i.e. equals now + 30 minutes. -/
def lockout_time (now : Nat) : Except PyErr Nat :=
  if minute_of now + 30 ≤ 59 then .ok (now + 30 * 60) else .error .valueError

/-- UserService.authenticate after the identity has been looked up: the
active check, the lockout check, the password check with
failure counting and lock-on-threshold, and the successful-login reset.
Returns (authentication result, identity state committed by the call); an
exception leaves the stored state unchanged because the commit is never
reached.  `verify` is bcrypt's `verify_password`. -/
def authenticate_user (verify : String → String → Bool) (now : Nat) (u : User)
    (password : String) : Except PyErr (Option User × User) :=
  if ¬ u.is_active then .ok (none, u)
  else if (match u.locked_until with
           | some t => decide (t > now)
           | none => false) then .ok (none, u)
  else if ¬ verify password u.password_hash then
    let u1 := { u with failed_login_attempts := u.failed_login_attempts + 1 }
    if u1.failed_login_attempts ≥ 5 then
      match lockout_time now with
      | .ok t => .ok (none, { u1 with locked_until := some t })
      | .error e => .error e
    else .ok (none, u1)
  else
    let u2 := { u with failed_login_attempts := 0, locked_until := none,
                       last_login := some now }
    .ok (some u2, u2)

/-- UserService.get_by_username / get_by_email composed as authenticate does:
username first, then email, both excluding soft-deleted rows. -/
def find_user (db : List User) (username : String) : Option User :=
  match db.find? (fun u => u.username == username && !u.is_deleted) with
  | some u => some u
  | none => db.find? (fun u => u.email == username && !u.is_deleted)

/-- UserService.authenticate over a partition's user rows.  The updated row
replaces the old one in the partition on commit. -/
def authenticate (verify : String → String → Bool) (db : List User)
    (username password : String) (now : Nat) :
    Except PyErr (Option User × List User) :=
  match find_user db username with
  | none => .ok (none, db)
  | some u =>
    match authenticate_user verify now u password with
    | .error e => .error e
    | .ok (result, u1) =>
      .ok (result, db.map (fun v => if v.username == u.username then u1 else v))

/-- C2 evaluated on the code: a fifth consecutive wrong password at minute 45
of the hour makes authenticate raise ValueError — `datetime.replace` is handed
minute 75 — so no lockout is stored and the request errors, where the claim
requires a transition to Locked with expiry exactly 30 minutes later.  (At
minute 10 the same attempt happens to work and does set expiry now + 30 min
with the counter 5 retained, confirming the intended behaviour the buggy
line was meant to implement.) -/
theorem authenticate_fifth_failure_valueerror :
    authenticate (fun p h => p == h)
        [{ id := "u1", username := "alice", email := "alice@acme.io",
           password_hash := "correct-pw", is_active := true, is_verified := true,
           is_superuser := false, is_deleted := false, failed_login_attempts := 4,
           locked_until := none, last_login := none, roles := [] }]
        "alice" "wrong-pw" 2700 = .error .valueError
    ∧ authenticate (fun p h => p == h)
        [{ id := "u1", username := "alice", email := "alice@acme.io",
           password_hash := "correct-pw", is_active := true, is_verified := true,
           is_superuser := false, is_deleted := false, failed_login_attempts := 4,
           locked_until := none, last_login := none, roles := [] }]
        "alice" "wrong-pw" 600 =
      .ok (none,
        [{ id := "u1", username := "alice", email := "alice@acme.io",
           password_hash := "correct-pw", is_active := true, is_verified := true,
           is_superuser := false, is_deleted := false, failed_login_attempts := 5,
           locked_until := some 2400, last_login := none, roles := [] }]) := by
  constructor
  · rfl
  · rfl

/-- C3: for an active identity whose lockout expiry has not yet passed, an
authentication attempt fails with the stored state unchanged — in particular
the failure counter is not incremented — and this holds for every password,
so the password is never consulted; once the expiry has passed, an attempt
with the correct password succeeds and commits the identity with the failure
counter reset to zero and the lockout expiry cleared. -/
theorem authenticate_lockout_spec (verify : String → String → Bool) (now : Nat)
    (u : User) (t : Nat) (password : String)
    (hact : u.is_active = true) (hlock : u.locked_until = some t) :
    (now < t → authenticate_user verify now u password = .ok (none, u))
    ∧ (t ≤ now → verify password u.password_hash = true →
        authenticate_user verify now u password =
          .ok (some { u with failed_login_attempts := 0, locked_until := none,
                             last_login := some now },
               { u with failed_login_attempts := 0, locked_until := none,
                        last_login := some now })) := by
  constructor
  · intro hnow
    simp [authenticate_user, hact, hlock, hnow]
  · intro hnow hpw
    have hnl : ¬ t > now := by omega
    simp [authenticate_user, hact, hlock, hnl, hpw]

/-- Witness for C3: a locked identity (expiry 500, now 400) rejects the
correct password with its state untouched; after the expiry (now 600) the
correct password logs in with counter 0 and no lockout. -/
theorem authenticate_lockout_spec_witness :
    (authenticate_user (fun p h => p == h) 400
        { id := "u1", username := "alice", email := "alice@acme.io",
          password_hash := "pw", is_active := true, is_verified := true,
          is_superuser := false, is_deleted := false, failed_login_attempts := 5,
          locked_until := some 500, last_login := none, roles := [] } "pw" =
      .ok (none,
        { id := "u1", username := "alice", email := "alice@acme.io",
          password_hash := "pw", is_active := true, is_verified := true,
          is_superuser := false, is_deleted := false, failed_login_attempts := 5,
          locked_until := some 500, last_login := none, roles := [] }))
    ∧ (authenticate_user (fun p h => p == h) 600
        { id := "u1", username := "alice", email := "alice@acme.io",
          password_hash := "pw", is_active := true, is_verified := true,
          is_superuser := false, is_deleted := false, failed_login_attempts := 5,
          locked_until := some 500, last_login := none, roles := [] } "pw" =
      .ok (some
        { id := "u1", username := "alice", email := "alice@acme.io",
          password_hash := "pw", is_active := true, is_verified := true,
          is_superuser := false, is_deleted := false, failed_login_attempts := 0,
          locked_until := none, last_login := some 600, roles := [] },
        { id := "u1", username := "alice", email := "alice@acme.io",
          password_hash := "pw", is_active := true, is_verified := true,
          is_superuser := false, is_deleted := false, failed_login_attempts := 0,
          locked_until := none, last_login := some 600, roles := [] })) := by
  constructor
  · exact (authenticate_lockout_spec (fun p h => p == h) 400 _ 500 "pw"
      rfl rfl).1 (by decide)
  · exact (authenticate_lockout_spec (fun p h => p == h) 600 _ 500 "pw"
      rfl rfl).2 (by decide) (by decide)

/-! ### Tenant directory, partitions and the database session
(`app/models/tenant.py`, `app/core/database.py`) -/

/-- A tenant directory row (`app/models/tenant.py`), the fields the claims
touch.  `schema_name` is derived from the slug at creation. -/
structure Tenant where
  name : String
  slug : String
  is_active : Bool
  is_verified : Bool
  schema_name : String
  schema_created : Bool
deriving DecidableEq, Repr

/-- One tenant partition: the schema name, its seeded role codes, and its
user rows. -/
structure SchemaState where
  name : String
  roles : List String
  users : List User
deriving DecidableEq, Repr

/-- The visible database state: the shared-partition tenant directory with
its TenantSettings rows (recorded by owner slug), and the tenant partitions. -/
structure Store where
  tenants : List Tenant
  settings_rows : List String
  schemas : List SchemaState
deriving DecidableEq, Repr

/-- An open SQLAlchemy session: the last committed state and the pending
(flushed but uncommitted) state.  `commit` publishes pending work;
`rollback` — and equally closing the session without committing, which is
what `get_db` does when a request errors — discards it. -/
structure Session where
  committed : Store
  pending : Store
deriving DecidableEq, Repr

/-- session.commit(). -/
def Session.commit (s : Session) : Session := { committed := s.pending, pending := s.pending }

/-- session.rollback(), also the effect of closing without commit. -/
def Session.rollback (s : Session) : Session := { committed := s.committed, pending := s.committed }

/-- TenantService.get_by_slug over the committed directory. -/
def get_by_slug (st : Store) (slug : String) : Option Tenant :=
  st.tenants.find? (fun t => t.slug == slug)

/-- The rows of a tenant partition ([] when the schema does not exist). -/
def get_partition (st : Store) (schema : String) : List User :=
  ((st.schemas.find? (fun sch => sch.name == schema)).map SchemaState.users).getD []

/-- UserService.get_by_id (excludes soft-deleted rows). -/
def get_by_id (db : List User) (user_id : String) : Option User :=
  db.find? (fun u => u.id == user_id && !u.is_deleted)

/-! ### Tenant provisioning workflow (`app/services/tenant_service.py`,
`app/services/user_service.py`, `app/services/auth_service.py`) -/

/-- TenantService.create: build the Tenant row with
`schema_name = "tenant_" + slug` and `schema_created = False`, add it and its
TenantSettings row, flush, and COMMIT.  The commit makes the directory row
durable before any later provisioning step runs. -/
def tenant_service_create (nm slug : String) (s : Session) : Session × Tenant :=
  let t : Tenant :=
    { name := nm, slug := slug, is_active := true, is_verified := false,
      schema_name := "tenant_" ++ slug, schema_created := false }
  let p : Store :=
    { s.pending with tenants := s.pending.tenants ++ [t],
                     settings_rows := s.pending.settings_rows ++ [slug] }
  (Session.commit { s with pending := p }, t)

/-- TenantService.create_schema: inside a try block, create the schema if
absent, create the identity/role/permission tables, seed the `admin` and
`user` roles, mark `schema_created = True`, and commit; on any failure roll
back and re-raise.  `fail_inject` models a storage failure inside the try
block (the spec's simulated fault injection). -/
def tenant_create_schema (t : Tenant) (fail_inject : Bool) (s : Session) :
    Except (PyErr × Session) Session :=
  if fail_inject then .error (.injected, s.rollback)
  else
    let schemas1 :=
      if s.pending.schemas.any (fun sch => sch.name == t.schema_name)
      then s.pending.schemas
      else s.pending.schemas ++ [{ name := t.schema_name, roles := ["admin", "user"],
                                   users := [] }]
    let tenants1 := s.pending.tenants.map
      (fun x => if x.slug == t.slug then { x with schema_created := true } else x)
    .ok (Session.commit
      { s with pending := { s.pending with schemas := schemas1, tenants := tenants1 } })

/-- UserService.create_admin_user, executed with the search path bound to the
new partition: look up the seeded `admin` role, insert the administrator
identity with superuser and verified set, attach the role when found, and
commit.  A failure before the commit (injected here) propagates and the
session's uncommitted work is discarded when the request ends. -/
def user_create_admin (hash : String → String) (schema em un pw : String)
    (fail_inject : Bool) (s : Session) : Except (PyErr × Session) (Session × User) :=
  if fail_inject then .error (.injected, s.rollback)
  else
    match s.pending.schemas.find? (fun sch => sch.name == schema) with
    | none => .error (.programmingError, s.rollback)
    | some sch =>
      let u : User :=
        { id := un, username := un, email := em, password_hash := hash pw,
          is_active := true, is_verified := true, is_superuser := true,
          is_deleted := false, failed_login_attempts := 0, locked_until := none,
          last_login := none,
          roles := if sch.roles.contains "admin" then ["admin"] else [] }
      let schemas1 := s.pending.schemas.map
        (fun x => if x.name == schema then { x with users := x.users ++ [u] } else x)
      .ok (Session.commit { s with pending := { s.pending with schemas := schemas1 } }, u)

/-- The registration request body (schemas/tenant.py TenantRegistration),
restricted to the fields the workflow consumes. -/
structure TenantRegistration where
  tenant_name : String
  tenant_slug : String
  contact_email : String
  admin_email : String
  admin_username : String
  admin_password : String
deriving DecidableEq, Repr

/-- AuthService.register_tenant: create the Tenant row (committed), create
the partition with its seed roles, create the administrator identity, then
issue the token pair.  The two `fail_*` flags model storage failures injected
in the respective steps. -/
def register_tenant (hash : String → String) (mac : String → TokenPayload → Nat)
    (secret : String) (data : TenantRegistration)
    (fail_schema fail_admin : Bool) (now : Nat) (s : Session) :
    Except (PyErr × Session) (Session × Tenant × User × TokenPair) :=
  let (s1, tenant) := tenant_service_create data.tenant_name data.tenant_slug s
  match tenant_create_schema tenant fail_schema s1 with
  | .error e => .error e
  | .ok s2 =>
    match user_create_admin hash tenant.schema_name data.admin_email
        data.admin_username data.admin_password fail_admin s2 with
    | .error e => .error e
    | .ok (s3, user) =>
      .ok (s3, tenant, user,
        create_token_pair mac secret user.id tenant.slug user.roles now)

/-- The /auth/register endpoint (api/v1/auth.py register_tenant): any
exception from the workflow is caught and becomes a 400; afterwards the
session is closed, so the queryable directory is the committed store.
Returns the HTTP status and that store. -/
def register_endpoint (hash : String → String) (mac : String → TokenPayload → Nat)
    (secret : String) (data : TenantRegistration)
    (fail_schema fail_admin : Bool) (now : Nat) (s : Session) : Nat × Store :=
  match register_tenant hash mac secret data fail_schema fail_admin now s with
  | .error (_, s2) => (400, s2.committed)
  | .ok (s2, _, _, _) => (201, s2.committed)

/-- The empty database. -/
def empty_store : Store := { tenants := [], settings_rows := [], schemas := [] }

/-- A fresh session over the empty database. -/
def empty_session : Session := { committed := empty_store, pending := empty_store }

/-- C1 evaluated on the code: provisioning slug "acme" on an empty directory
with a failure injected during partition/schema creation reports the 400
provisioning error, yet exactly one Tenant row for "acme" — with
schema_created still false — remains queryable in the directory, because
TenantService.create committed the row before the failing step and the
rollback undoes only uncommitted work.  The same holds when the failure is
injected at the administrator-identity step instead.  The claim requires
zero rows to remain. -/
theorem register_tenant_commits_row_despite_failure :
    (let out := register_endpoint (fun p => p) (fun _ _ => 0) "k"
        { tenant_name := "Acme", tenant_slug := "acme",
          contact_email := "ops@acme.io", admin_email := "root@acme.io",
          admin_username := "root", admin_password := "pw" }
        true false 1000 empty_session
     out.1 = 400
       ∧ (out.2.tenants.filter (fun t => t.slug == "acme")).length = 1
       ∧ (out.2.tenants.find? (fun t => t.slug == "acme")).map Tenant.schema_created =
           some false)
    ∧ (let out2 := register_endpoint (fun p => p) (fun _ _ => 0) "k"
        { tenant_name := "Acme", tenant_slug := "acme",
          contact_email := "ops@acme.io", admin_email := "root@acme.io",
          admin_username := "root", admin_password := "pw" }
        false true 1000 empty_session
       out2.1 = 400
         ∧ (out2.2.tenants.filter (fun t => t.slug == "acme")).length = 1) := by
  exact ⟨⟨rfl, rfl, rfl⟩, ⟨rfl, rfl⟩⟩

/-! ### Login and token refresh (`app/services/auth_service.py`,
`app/api/v1/auth.py`) -/

/-- AuthService.login: require a slug, look the tenant up, require it active,
bind the search path to its partition, authenticate there, and mint the token
pair.  There is no check of `schema_created` anywhere on this path. -/
def auth_login (verify : String → String → Bool) (mac : String → TokenPayload → Nat)
    (secret : String) (st : Store) (username password : String)
    (tenant_slug : Option String) (now : Nat) :
    Except PyErr (Option (TokenPair × User × Tenant)) :=
  match tenant_slug with
  | none => .ok none
  | some slug =>
    match get_by_slug st slug with
    | none => .ok none
    | some tenant =>
      if ¬ tenant.is_active then .ok none
      else
        match authenticate verify (get_partition st tenant.schema_name)
            username password now with
        | .error e => .error e
        | .ok (none, _) => .ok none
        | .ok (some user, _) =>
          .ok (some (create_token_pair mac secret user.id slug user.roles now,
                     user, tenant))

/-- AuthService.refresh_token: verify the refresh token, look its tenant
claim up, require the tenant active, fetch the subject in the tenant's
partition, require it active, and mint a fresh pair.  Again no
`schema_created` check. -/
def auth_refresh (mac : String → TokenPayload → Nat) (secret : String)
    (st : Store) (refresh_tok : Token) (now : Nat) : Option TokenPair :=
  match verify_token mac secret now refresh_tok "refresh" with
  | none => none
  | some payload =>
    match get_by_slug st payload.tenant_id with
    | none => none
    | some tenant =>
      if ¬ tenant.is_active then none
      else
        match get_by_id (get_partition st tenant.schema_name) payload.sub with
        | none => none
        | some user =>
          if ¬ user.is_active then none
          else some (create_token_pair mac secret user.id payload.tenant_id
                       user.roles now)

/-- Helper: whatever payload verify_token accepts is the token's own payload. -/
theorem verify_token_payload_eq {mac : String → TokenPayload → Nat} {secret : String}
    {now : Nat} {t : Token} {token_type : String} {p : TokenPayload}
    (h : verify_token mac secret now t token_type = some p) : p = t.payload := by
  unfold verify_token decode_token at h
  by_cases hc : t.sig = mac secret t.payload ∧ ¬ t.payload.exp < now
  · rw [if_pos hc] at h
    by_cases hty : t.payload.type ≠ token_type
    · simp [hty] at h
    · simp only [hty, if_false] at h
      by_cases hexp : t.payload.exp < now
      · simp [hexp] at h
      · simp only [hexp, if_false] at h
        exact (Option.some_injective _ h).symm
  · rw [if_neg hc] at h
    exact absurd h (by simp)

/-- The caller-visible outcome of POST /auth/login. -/
inductive LoginOutcome
  | success (pair : TokenPair)
  | httpError (status : Nat) (detail : String)
  | crash (e : PyErr)
deriving DecidableEq, Repr

/-- The /auth/login endpoint (api/v1/auth.py login): a None service result
becomes the one generic 401; an uncaught exception escapes the handler. -/
def login_endpoint (verify : String → String → Bool)
    (mac : String → TokenPayload → Nat) (secret : String) (st : Store)
    (username password : String) (tenant_slug : Option String) (now : Nat) :
    LoginOutcome :=
  match auth_login verify mac secret st username password tenant_slug now with
  | .error e => .crash e
  | .ok none => .httpError 401 "Invalid credentials or tenant"
  | .ok (some (pair, _, _)) => .success pair

/-- True when the service-layer login produced a token response. -/
def login_succeeded (r : Except PyErr (Option (TokenPair × User × Tenant))) : Bool :=
  match r with
  | .ok (some _) => true
  | _ => false

/-- A directory state for C8: tenant "acme" is active but its
partition-provisioned flag is false, while its partition holds an active
administrator identity. -/
def c8_store : Store :=
  { tenants := [{ name := "Acme", slug := "acme", is_active := true,
                  is_verified := false, schema_name := "tenant_" ++ "acme",
                  schema_created := false }],
    settings_rows := ["acme"],
    schemas := [{ name := "tenant_" ++ "acme", roles := ["admin", "user"],
                  users := [{ id := "u1", username := "bob", email := "bob@acme.io",
                              password_hash := "pw", is_active := true,
                              is_verified := true, is_superuser := true,
                              is_deleted := false, failed_login_attempts := 0,
                              locked_until := none, last_login := none,
                              roles := ["admin"] }] }] }

/-- C8 counterexample: neither login nor refresh consults the
partition-provisioned flag, so for a tenant whose `schema_created` is false
but whose partition holds a matching active identity, both login and token
refresh succeed — the claim that they never succeed for such a tenant is
false on the code. -/
theorem login_ignores_schema_created :
    (get_by_slug c8_store "acme").map Tenant.schema_created = some false
    ∧ login_succeeded (auth_login (fun p h => p == h) (fun _ _ => 0) "k"
        c8_store "bob" "pw" (some "acme") 1000) = true
    ∧ (auth_refresh (fun _ _ => 0) "k" c8_store
        { payload := { sub := "u1", tenant_id := "acme", exp := 5000,
                       type := "refresh", roles := [] }, sig := 0 } 1000).isSome = true := by
  exact ⟨rfl, rfl, rfl⟩

/-- C8 as amended: login and token refresh check only that the tenant exists
and is active, never `schema_created`; what protects a half-provisioned
tenant is its empty partition — for every tenant whose partition holds no
identity rows (the state a provisioning failure leaves a
`schema_created = false` tenant in), login and token refresh never succeed. -/
theorem login_refresh_empty_partition_never_succeed
    (verify : String → String → Bool) (mac : String → TokenPayload → Nat)
    (secret : String) (st : Store) (slug : String) (t : Tenant)
    (username password : String) (tok : Token) (now : Nat)
    (ht : get_by_slug st slug = some t)
    (hsc : t.schema_created = false)
    (hpart : get_partition st t.schema_name = [])
    (htok : tok.payload.tenant_id = slug) :
    auth_login verify mac secret st username password (some slug) now = .ok none
    ∧ auth_refresh mac secret st tok now = none := by
  constructor
  · simp only [auth_login, ht, hpart, authenticate, find_user, List.find?_nil]
    by_cases hia : t.is_active <;> simp [hia]
  · simp only [auth_refresh]
    cases hv : verify_token mac secret now tok "refresh" with
    | none => rfl
    | some payload =>
      have hpay : payload = tok.payload := verify_token_payload_eq hv
      subst hpay
      simp only [htok, ht, get_by_id, hpart, List.find?_nil]
      by_cases hia : t.is_active <;> simp [hia]

/-- Witness for C8's amended theorem: the directory left by a failed
provisioning of "acme" (committed row, no partition) refuses both the login
and the refresh attempt. -/
theorem login_refresh_empty_partition_witness :
    auth_login (fun p h => p == h) (fun _ _ => 0) "k"
      { tenants := [{ name := "Acme", slug := "acme", is_active := true,
                      is_verified := false, schema_name := "tenant_" ++ "acme",
                      schema_created := false }],
        settings_rows := ["acme"], schemas := [] }
      "bob" "pw" (some "acme") 1000 = .ok none
    ∧ auth_refresh (fun _ _ => 0) "k"
      { tenants := [{ name := "Acme", slug := "acme", is_active := true,
                      is_verified := false, schema_name := "tenant_" ++ "acme",
                      schema_created := false }],
        settings_rows := ["acme"], schemas := [] }
      { payload := { sub := "u1", tenant_id := "acme", exp := 5000,
                     type := "refresh", roles := [] }, sig := 0 } 1000 = none :=
  login_refresh_empty_partition_never_succeed (fun p h => p == h) (fun _ _ => 0) "k"
    _ "acme" _ "bob" "pw" _ 1000 rfl rfl rfl rfl

/-- A directory state for C9: tenant "acme" is fully provisioned and its
partition holds identity "alice" with four failed attempts already
recorded. -/
def c9_store : Store :=
  { tenants := [{ name := "Acme", slug := "acme", is_active := true,
                  is_verified := false, schema_name := "tenant_" ++ "acme",
                  schema_created := true }],
    settings_rows := ["acme"],
    schemas := [{ name := "tenant_" ++ "acme", roles := ["admin", "user"],
                  users := [{ id := "u1", username := "alice", email := "alice@acme.io",
                              password_hash := "correct-pw", is_active := true,
                              is_verified := true, is_superuser := false,
                              is_deleted := false, failed_login_attempts := 4,
                              locked_until := none, last_login := none,
                              roles := ["user"] }] }] }

/-- C9 counterexample: two failing login requests with different
caller-visible outcomes.  An unknown tenant yields the generic 401, but a
wrong password that is the identity's fifth failure, at minute 45 of the
hour, raises ValueError out of the handler (an internal server error), so
the outcomes of the two failures differ and reveal which condition failed. -/
theorem login_failure_outcomes_differ :
    login_endpoint (fun p h => p == h) (fun _ _ => 0) "k" empty_store
        "alice" "pw" (some "ghost") 2700 =
      .httpError 401 "Invalid credentials or tenant"
    ∧ login_endpoint (fun p h => p == h) (fun _ _ => 0) "k" c9_store
        "alice" "wrong-pw" (some "acme") 2700 = .crash .valueError
    ∧ LoginOutcome.httpError 401 "Invalid credentials or tenant" ≠
        LoginOutcome.crash .valueError := by
  exact ⟨rfl, rfl, by decide⟩

/-- C9 as amended: every failing login request whose failure does not raise —
unknown or inactive tenant, no such user, inactive user, account in lockout,
and a wrong password that does not trigger the broken lockout write — gets
the identical generic 401 response, so any two such failures are
indistinguishable to the caller; the one exception is the wrong-password case
that is the fifth failure at minute ≥ 30 of the hour, which raises instead. -/
theorem login_failures_uniform_401
    (verify₁ verify₂ : String → String → Bool)
    (mac₁ mac₂ : String → TokenPayload → Nat) (secret₁ secret₂ : String)
    (st₁ st₂ : Store) (username₁ username₂ password₁ password₂ : String)
    (slug₁ slug₂ : Option String) (now₁ now₂ : Nat)
    (h₁ : auth_login verify₁ mac₁ secret₁ st₁ username₁ password₁ slug₁ now₁ = .ok none)
    (h₂ : auth_login verify₂ mac₂ secret₂ st₂ username₂ password₂ slug₂ now₂ = .ok none) :
    login_endpoint verify₁ mac₁ secret₁ st₁ username₁ password₁ slug₁ now₁ =
      login_endpoint verify₂ mac₂ secret₂ st₂ username₂ password₂ slug₂ now₂
    ∧ login_endpoint verify₁ mac₁ secret₁ st₁ username₁ password₁ slug₁ now₁ =
        .httpError 401 "Invalid credentials or tenant" := by
  constructor
  · simp [login_endpoint, h₁, h₂]
  · simp [login_endpoint, h₁]

/-- Witness for C9's amended theorem: an unknown-tenant failure and a
wrong-password failure (not the fifth attempt) produce the same generic
401. -/
theorem login_failures_uniform_401_witness :
    login_endpoint (fun p h => p == h) (fun _ _ => 0) "k" empty_store
        "alice" "pw" (some "ghost") 1000 =
      login_endpoint (fun p h => p == h) (fun _ _ => 0) "k" c9_store
        "ghost-user" "pw" (some "acme") 1000
    ∧ login_endpoint (fun p h => p == h) (fun _ _ => 0) "k" empty_store
        "alice" "pw" (some "ghost") 1000 =
      .httpError 401 "Invalid credentials or tenant" :=
  login_failures_uniform_401 (fun p h => p == h) (fun p h => p == h)
    (fun _ _ => 0) (fun _ _ => 0) "k" "k" empty_store c9_store
    "alice" "ghost-user" "pw" "pw" (some "ghost") (some "acme") 1000 1000 rfl rfl

end WareAxis
